import Mathlib

/-!
Verification development for the kpf-rhcompute-mcp repository.

The development shallowly embeds the two design cores of the repository:

* the parameter/response tree codec
  (`helpers/compute_helpers.py`, `helpers/compute_rhino3dm_helpers.py`), and
* the location-resolution pipeline (`helpers/location_helpers.py`),

together with the compute-call response handling (`run_rhino_compute`) and the
multi-geometry file writer (`save_3dm_file`).

Modelling conventions:

* Python strings are Lean `String`s; the string operations used by the code
  (`in`, `split`, `strip`, `lower`, `replace`, `startswith`, `endswith`) are
  re-implemented on `List Char` so that the kernel can evaluate them.
* Python floats are modelled as exact scaled decimals `mant / 10 ^ scale`
  (structure `DecFloat`), which is exact on the decimal literals the code
  manipulates; binary rounding of IEEE doubles is abstracted away.
* Outbound HTTP calls (geocoding, the compute POST) are oracles passed as
  function arguments; the possible outcomes (timeout, transport error,
  candidate list) mirror the `requests` exceptions the code catches.
* Raised exceptions that escape a function are modelled with `Option`/`Except`;
  caught exceptions are modelled by the branch the handler takes.
-/

namespace GhMcp

/-! ## Character-level string operations (Python semantics) -/

/-- Python `pattern in s` (substring containment). The empty pattern is
contained in every string, as in Python. -/
def listContainsSub (pat : List Char) : List Char → Bool
  | [] => pat.isEmpty
  | c :: cs => pat.isPrefixOf (c :: cs) || listContainsSub pat cs

/-- Python `pat in s` on strings. -/
def substrMem (pat s : String) : Bool :=
  listContainsSub pat.data s.data

/-- Python `str.split(sep)` for a one-character separator: keeps empty parts. -/
def splitOnCharAux (sep : Char) (acc : List Char) : List Char → List (List Char)
  | [] => [acc.reverse]
  | c :: cs =>
      if c = sep then acc.reverse :: splitOnCharAux sep [] cs
      else splitOnCharAux sep (c :: acc) cs

/-- Python `s.split(sep)` for a one-character separator. -/
def splitOnChar (sep : Char) (s : String) : List String :=
  (splitOnCharAux sep [] s.data).map List.asString

/-- Python `str.strip()`: drop whitespace from both ends. -/
def pyStrip (s : String) : String :=
  (((s.data.dropWhile Char.isWhitespace).reverse.dropWhile Char.isWhitespace).reverse).asString

/-- ASCII lower-casing of one character (`str.lower` restricted to the ASCII
range, which covers every string the code manipulates). -/
def lowerChar (c : Char) : Char :=
  if 'A' ≤ c ∧ c ≤ 'Z' then Char.ofNat (c.toNat + 32) else c

/-- Python `s.lower()`. -/
def pyLower (s : String) : String :=
  (s.data.map lowerChar).asString

/-- One step of Python `str.replace`: scan left to right, replacing each
non-overlapping occurrence of `pat` by `rep`.  Fuel-indexed recursion; the
fuel is the length of the remaining text, which bounds the number of steps. -/
def replaceFuel (pat rep : List Char) : Nat → List Char → List Char
  | 0, cs => cs
  | _ + 1, [] => []
  | f + 1, c :: cs =>
      if pat ≠ [] ∧ pat.isPrefixOf (c :: cs) then
        rep ++ replaceFuel pat rep f (List.drop pat.length (c :: cs))
      else
        c :: replaceFuel pat rep f cs

/-- Python `s.replace(pat, rep)` for a non-empty pattern. -/
def pyReplace (s pat rep : String) : String :=
  (replaceFuel pat.data rep.data s.data.length s.data).asString

/-- Python `s.startswith(p)`. -/
def pyStartsWith (s p : String) : Bool :=
  p.data.isPrefixOf s.data

/-- Python `s.endswith(p)`. -/
def pyEndsWith (s p : String) : Bool :=
  p.data.isSuffixOf s.data

/-- Python `s[1:-1]`: drop the first and last character. -/
def dropFirstLast (s : String) : String :=
  ((s.data.drop 1).dropLast).asString

/-! ## Exact decimal numbers (model of Python floats) -/

/-- `10 ^ n` over `Int`, by structural recursion (kernel-evaluable). -/
def pow10 : Nat → Int
  | 0 => 1
  | n + 1 => 10 * pow10 n

/-- Exact scaled decimal `mant / 10 ^ scale`, the model of a Python float
produced by parsing a decimal literal. -/
structure DecFloat where
  mant : Int
  scale : Nat
deriving DecidableEq, Repr

/-- The rational value of a `DecFloat`. -/
def DecFloat.val (d : DecFloat) : ℚ :=
  (d.mant : ℚ) / ((pow10 d.scale : ℤ) : ℚ)

/-- Comparison of two `DecFloat`s by cross multiplication (kernel-evaluable,
agrees with `≤` on the rational values). -/
def DecFloat.le (a b : DecFloat) : Bool :=
  a.mant * pow10 b.scale ≤ b.mant * pow10 a.scale

/-- A `DecFloat` with integral value: Python `value == int(value)`. -/
def DecFloat.isIntegral (d : DecFloat) : Bool :=
  d.mant % pow10 d.scale = 0

/-- Python `int(value)` on a float: truncation toward zero.  Only used on
integral values, where it is the exact quotient. -/
def DecFloat.toIntTrunc (d : DecFloat) : Int :=
  d.mant / pow10 d.scale

/-! ## Python numeric literal parsing -/

/-- Leading decimal digits of a character list, and the rest. -/
def takeDigits (cs : List Char) : List Char × List Char :=
  (cs.takeWhile Char.isDigit, cs.dropWhile Char.isDigit)

/-- Numeric value of a digit list. -/
def digitsToNat (cs : List Char) : Nat :=
  cs.foldl (fun a c => a * 10 + (c.toNat - 48)) 0

/-- Optional exponent suffix `e<sign><digits>` of a float literal; `none` on a
malformed suffix, `some 0` on the empty rest. -/
def parseExpSuffix (cs : List Char) : Option Int :=
  match cs with
  | [] => some 0
  | 'e' :: r | 'E' :: r =>
      let (sgn, r1) : Int × List Char :=
        match r with
        | '+' :: t => (1, t)
        | '-' :: t => (-1, t)
        | t => (1, t)
      let (ds, r2) := takeDigits r1
      if ds.isEmpty ∨ ¬ r2.isEmpty then none else some (sgn * (digitsToNat ds : Int))
  | _ => none

/-- Assemble a parsed float literal: sign, integer digits, fraction digits,
decimal exponent. -/
def mkDecFloat (sgn : Int) (ip fp : List Char) (e : Int) : DecFloat :=
  let mant : Int := sgn * ((digitsToNat (ip ++ fp) : Nat) : Int)
  let e' : Int := e - (fp.length : Int)
  if 0 ≤ e' then ⟨mant * pow10 e'.toNat, 0⟩ else ⟨mant, e'.natAbs⟩

/-- Python `float(s)` on finite decimal literals: optional surrounding
whitespace, optional sign, digits with an optional fraction part, optional
decimal exponent.  The `inf`/`nan`/underscore forms are omitted (none of them
can yield an in-range coordinate or a decodable number in this codebase). -/
def pyFloat? (s : String) : Option DecFloat :=
  let cs := (pyStrip s).data
  let (sgn, cs1) : Int × List Char :=
    match cs with
    | '+' :: t => (1, t)
    | '-' :: t => (-1, t)
    | t => (1, t)
  let (ip, cs2) := takeDigits cs1
  match cs2 with
  | '.' :: r =>
      let (fp, r2) := takeDigits r
      if ip.isEmpty ∧ fp.isEmpty then none
      else
        match parseExpSuffix r2 with
        | some e => some (mkDecFloat sgn ip fp e)
        | none => none
  | r =>
      if ip.isEmpty then none
      else
        match parseExpSuffix r with
        | some e => some (mkDecFloat sgn ip [] e)
        | none => none

/-- Python `int(s)`: optional surrounding whitespace, optional sign, digits. -/
def pyInt? (s : String) : Option Int :=
  let cs := (pyStrip s).data
  let (sgn, cs1) : Int × List Char :=
    match cs with
    | '+' :: t => (1, t)
    | '-' :: t => (-1, t)
    | t => (1, t)
  let (ds, rest) := takeDigits cs1
  if ds.isEmpty ∨ ¬ rest.isEmpty then none else some (sgn * (digitsToNat ds : Int))

/-! ## Location resolution pipeline (`helpers/location_helpers.py`) -/

/-- `parse_direct_coordinates` (location_helpers.py:6-37): try to read the
location string as a `lat, lon` pair; the caught `ValueError` of a failed
`float(...)` is the `none` branch of `pyFloat?`. -/
def parse_direct_coordinates (location : String) :
    Bool × Option DecFloat × Option DecFloat :=
  if ¬ substrMem "," location then (false, none, none)
  else
    match (splitOnChar ',' location).map pyStrip with
    | [p0, p1] =>
        match pyFloat? p0, pyFloat? p1 with
        | some possible_lat, some possible_lon =>
            if DecFloat.le ⟨-90, 0⟩ possible_lat && DecFloat.le possible_lat ⟨90, 0⟩ &&
               DecFloat.le ⟨-180, 0⟩ possible_lon && DecFloat.le possible_lon ⟨180, 0⟩ then
              (true, some possible_lat, some possible_lon)
            else (false, none, none)
        | _, _ => (false, none, none)
    | _ => (false, none, none)

/-- `is_potential_intersection` (location_helpers.py:40-45). -/
def is_potential_intersection (location : String) : Bool :=
  [" and ", " & ", " at ", " intersection "].any
    (fun keyword => substrMem keyword (pyLower location))

/-- The query string issued by `try_alternate_intersection_format`
(location_helpers.py:82-101): the replacement is performed on the
*lower-cased* input (`processed_location.lower().replace(...)`). -/
def try_alternate_intersection_format_query (location : String) : String :=
  if substrMem " and " (pyLower location) then
    pyReplace (pyLower location) " and " " & "
  else if substrMem " & " (pyLower location) then
    pyReplace (pyLower location) " & " " and "
  else location

/-- One geocoding candidate as returned by Nominatim; `lat`/`lon` are the raw
strings of the JSON payload, `typ`/`cls` model the optional `type`/`class`
fields. -/
structure Candidate where
  lat : String
  lon : String
  typ : Option String
  cls : Option String
  display_name : Option String
deriving DecidableEq, Repr

/-- Outcome of one `geocode_location` HTTP call, mirroring the `requests`
exceptions caught by `location_to_coordinates`. -/
inductive GeocodeOutcome where
  | timeout
  | reqError (msg : String)
  | ok (results : List Candidate)
deriving DecidableEq, Repr

/-- The per-item test of `select_best_geocoding_result`'s loop
(location_helpers.py:121-130): type contains "highway" (case-insensitive) or
class equals "highway". -/
def candidate_matches_highway (item : Candidate) : Bool :=
  (match item.typ with
   | some t => substrMem "highway" (pyLower t)
   | none => false) ||
  (item.cls == some "highway")

/-- `select_best_geocoding_result` (location_helpers.py:104-137); the
`ValueError` raised on an empty list is the `.error` branch. -/
def select_best_geocoding_result (data : List Candidate) (is_intersection : Bool) :
    Except String Candidate :=
  match data with
  | [] => .error "No geocoding results to select from"
  | c0 :: _ =>
      match (if is_intersection then data.find? candidate_matches_highway else none) with
      | some c => .ok c
      | none => .ok c0

/-- `calculate_bounding_box` (location_helpers.py:140-161) over exact
rationals, with `abs(math.cos(math.radians(lat)))` supplied as the oracle
`cosAbs` (the float cosine routine). -/
def calculate_bounding_boxQ (cosAbs : ℚ → ℚ) (lat lon box_size_meters : ℚ) :
    List ℚ :=
  let lat_offset := box_size_meters / 111320
  let lon_offset := box_size_meters / (111320 * cosAbs lat)
  [lon - lon_offset, lat - lat_offset, lon + lon_offset, lat + lat_offset]

/-- Rendering of a number into the interpolated URL (Python's `str` of the
float, abstracted to a fixed rendering of the exact rational). -/
def pyNumStr (q : ℚ) : String :=
  if q.den = 1 then toString q.num else toString q.num ++ "/" ++ toString q.den

/-- `generate_overpass_url` (location_helpers.py:164-165). -/
def generate_overpass_url (bbox : List ℚ) : String :=
  "https://overpass-api.de/api/map?bbox=" ++
    (pyNumStr bbox[0]! ++ "," ++ pyNumStr bbox[1]! ++ "," ++
     pyNumStr bbox[2]! ++ "," ++ pyNumStr bbox[3]!)

/-- Lines 207-218 of `location_to_coordinates` plus the surrounding handlers:
select a candidate, read its `lat`/`lon` (a failed `float(...)` raises a
`ValueError`, caught at line 224), and build the bounding-box URL. -/
def resolve_selected (cosAbs : ℚ → ℚ) (box_size_meters : ℚ)
    (results : List Candidate) (intersection_check : Bool) : String :=
  match select_best_geocoding_result results intersection_check with
  | .error m => "Error: Invalid location format: " ++ m
  | .ok sel =>
      match pyFloat? sel.lat with
      | none =>
          "Error: Invalid location format: could not convert string to float: \x27" ++
            sel.lat ++ "\x27"
      | some la =>
          match pyFloat? sel.lon with
          | none =>
              "Error: Invalid location format: could not convert string to float: \x27" ++
                sel.lon ++ "\x27"
          | some lo =>
              generate_overpass_url
                (calculate_bounding_boxQ cosAbs la.val lo.val box_size_meters)

/-- Lines 190-212 of `location_to_coordinates`: the geocoding path taken when
the input is not a direct coordinate pair, instrumented with the list of
geocoding queries issued (in order).  `geocode` is the outbound HTTP call of
`geocode_location`; its `timeout`/`reqError` outcomes are the exceptions
caught at lines 220-223. -/
def geocode_path (geocode : String → GeocodeOutcome) (cosAbs : ℚ → ℚ)
    (location : String) (box_size_meters : ℚ) : String × List String :=
  let intersection_check := is_potential_intersection location
  match geocode location with
  | .timeout => ("Error: Geocoding API request timed out", [location])
  | .reqError m =>
      ("Error: Network error when geocoding location: " ++ m, [location])
  | .ok geocode_results =>
      if geocode_results.isEmpty && intersection_check then
        let retry_query := try_alternate_intersection_format_query location
        match geocode retry_query with
        | .timeout =>
            ("Error: Geocoding API request timed out", [location, retry_query])
        | .reqError m =>
            ("Error: Network error when geocoding location: " ++ m,
             [location, retry_query])
        | .ok retry_results =>
            if retry_results.isEmpty then
              ("Error: Location \x27" ++ location ++ "\x27 not found",
               [location, retry_query])
            else
              (resolve_selected cosAbs box_size_meters retry_results
                 intersection_check, [location, retry_query])
      else if geocode_results.isEmpty then
        ("Error: Location \x27" ++ location ++ "\x27 not found", [location])
      else
        (resolve_selected cosAbs box_size_meters geocode_results
           intersection_check, [location])

/-- `location_to_coordinates` (location_helpers.py:168-229), instrumented with
the list of geocoding queries issued (in order). -/
def location_to_coordinates_traced (geocode : String → GeocodeOutcome)
    (cosAbs : ℚ → ℚ) (location : String) (box_size_meters : ℚ) :
    String × List String :=
  match parse_direct_coordinates location with
  | (true, some la, some lo) =>
      (generate_overpass_url
        (calculate_bounding_boxQ cosAbs la.val lo.val box_size_meters), [])
  | _ => geocode_path geocode cosAbs location box_size_meters

/-- `location_to_coordinates`: the returned string. -/
def location_to_coordinates (geocode : String → GeocodeOutcome)
    (cosAbs : ℚ → ℚ) (location : String) (box_size_meters : ℚ) : String :=
  (location_to_coordinates_traced geocode cosAbs location box_size_meters).1

/-- `location_to_coordinates_async` (location_helpers.py:233-253): delegates
directly to the synchronous version. -/
def location_to_coordinates_async (geocode : String → GeocodeOutcome)
    (cosAbs : ℚ → ℚ) (location : String) (box_size_meters : ℚ) : String :=
  location_to_coordinates geocode cosAbs location box_size_meters

/-! ## Real-valued bounding box model (for the trigonometric invariants) -/

/-- `math.radians`. -/
noncomputable def radians (x : ℝ) : ℝ := x * Real.pi / 180

/-- `calculate_bounding_box` (location_helpers.py:140-161) over the reals,
with the exact cosine in place of the float routine. -/
noncomputable def calculate_bounding_box (lat lon box_size_meters : ℝ) : List ℝ :=
  let lat_offset := box_size_meters / 111320
  let lon_offset := box_size_meters / (111320 * |Real.cos (radians lat)|)
  [lon - lon_offset, lat - lat_offset, lon + lon_offset, lat + lat_offset]

/-! ## Geometry objects and the multi-geometry writer
(`helpers/compute_rhino3dm_helpers.py`) -/

/-- An opaque decoded geometry object; the Boolean fields record which
`isinstance` capability checks it satisfies (`rhino3dm.Curve`, `Point`,
`Surface`, `Mesh`, `Brep`). -/
structure GeomObj where
  id : Nat
  isCurve : Bool
  isPoint : Bool
  isSurface : Bool
  isMesh : Bool
  isBrep : Bool
deriving DecidableEq, Repr

/-- The object table of a `rhino3dm.File3dm`, one bucket per add-operation
used by `save_3dm_file`. -/
structure File3dmObjectTable where
  curves : List GeomObj
  points : List GeomObj
  surfaces : List GeomObj
  meshes : List GeomObj
  breps : List GeomObj
deriving DecidableEq, Repr

/-- The body of `save_3dm_file`'s loop (compute_rhino3dm_helpers.py:48-84):
try each kind in the fixed order curve, point, surface, mesh, brep; the first
matching `isinstance` wins; no match falls through without adding. -/
def add_object (model : File3dmObjectTable) (obj : GeomObj) : File3dmObjectTable :=
  if obj.isCurve then { model with curves := model.curves ++ [obj] }
  else if obj.isPoint then { model with points := model.points ++ [obj] }
  else if obj.isSurface then { model with surfaces := model.surfaces ++ [obj] }
  else if obj.isMesh then { model with meshes := model.meshes ++ [obj] }
  else if obj.isBrep then { model with breps := model.breps ++ [obj] }
  else model

/-- `save_3dm_file` (compute_rhino3dm_helpers.py:45-85); the final
`model.Write(filename)` is abstracted into returning the populated table. -/
def save_3dm_file (objects : List GeomObj) : File3dmObjectTable :=
  objects.foldl add_object ⟨[], [], [], [], []⟩

/-! ## Response decoding (`decode_gh_output`) -/

/-- The `data` field of one response leaf: a JSON string, or any non-string
JSON value (opaque).  On a non-string the code's `startswith`, `json.loads`
and `'.' in data` all raise `TypeError`, which the `except` blocks swallow. -/
inductive LeafData where
  | str (s : String)
  | nonstr (tag : Nat)
deriving DecidableEq, Repr

/-- One decoded value produced by `decode_gh_output`. -/
inductive Decoded where
  | geom (g : GeomObj)
  | intVal (n : Int)
  | realVal (d : DecFloat)
  | strVal (s : String)
  | rawVal (tag : Nat)
deriving DecidableEq, Repr

/-- One `{type, data}` leaf of a response branch. -/
structure GhLeaf where
  type : String
  data : LeafData
deriving DecidableEq, Repr

/-- One named entry of the response's `values` sequence. -/
structure GhEntry where
  paramName : String
  innerTree : List (String × List GhLeaf)
deriving DecidableEq, Repr

/-- The full response object (only its `values` key is read). -/
structure GhOutput where
  values : List GhEntry
deriving DecidableEq, Repr

/-- The quote-stripping step of `decode_gh_output`
(compute_rhino3dm_helpers.py:21-22): `data = data[1:-1]` whenever the text
both starts and ends with a double quote (so the one-character text `"` strips
to the empty string). -/
def unquoteOnce (s0 : String) : String :=
  if pyStartsWith s0 "\"" && pyEndsWith s0 "\"" then dropFirstLast s0 else s0

/-- The per-leaf decode chain of `decode_gh_output`
(compute_rhino3dm_helpers.py:18-42).  `geomDecode` is the oracle for
`rhino3dm.CommonObject.Decode(json.loads(data))`: `none` covers both a raised
exception and a `None` return. -/
def decodeLeaf (geomDecode : String → Option GeomObj) (d : LeafData) : Decoded :=
  match d with
  | .nonstr tag => .rawVal tag
  | .str s0 =>
      let s := unquoteOnce s0
      match geomDecode s with
      | some obj => .geom obj
      | none =>
          if substrMem "." s then
            match pyFloat? s with
            | some num => .realVal num
            | none => .strVal s
          else
            match pyInt? s with
            | some num => .intVal num
            | none => .strVal s

/-- `decode_gh_output` (compute_rhino3dm_helpers.py:14-43); the default tree
path is the literal `\x7b0;0\x7d`.  The `none` result models the uncaught
`IndexError` of `output['values'][0]` on an empty sequence and the uncaught
`KeyError` of `['InnerTree'][tree_path]` when the first entry's branch map
lacks the path. -/
def decode_gh_output (geomDecode : String → Option GeomObj) (output : GhOutput)
    (tree_path : String) : Option (List Decoded) :=
  match output.values with
  | [] => none
  | entry :: _ =>
      match entry.innerTree.lookup tree_path with
      | none => none
      | some branch => some (branch.map (fun item => decodeLeaf geomDecode item.data))

/-! ## Parameter encoding (`helpers/compute_helpers.py`) -/

/-- A native Python value given to `format_parameter`.  `pyOther` carries the
`str(value)` representation of any value outside the four tested types. -/
inductive PyVal where
  | pyStr (s : String)
  | pyBool (b : Bool)
  | pyInt (n : Int)
  | pyFloat (d : DecFloat)
  | pyOther (strRepr : String)
deriving DecidableEq, Repr

/-- One `{type, data}` leaf of an encoded parameter. -/
structure EncLeaf where
  type : String
  data : PyVal
deriving DecidableEq, Repr

/-- One formatted parameter: `ParamName` plus `InnerTree`. -/
structure FormattedParam where
  paramName : String
  innerTree : List (String × List EncLeaf)
deriving DecidableEq, Repr

/-- `format_parameter` (compute_helpers.py:62-106).  The float branch's
`value == int(value)` (truncation toward zero) holds exactly when the value is
integral, i.e. `DecFloat.isIntegral`; `int(value)` is then `toIntTrunc`. -/
def format_parameter (param_name : String) (value : PyVal) : FormattedParam :=
  let (net_type, v) : String × PyVal :=
    match value with
    | .pyStr _ => ("System.String", value)
    | .pyBool _ => ("System.Boolean", value)
    | .pyInt _ => ("System.Int32", value)
    | .pyFloat d =>
        if d.isIntegral then ("System.Int32", .pyInt d.toIntTrunc)
        else ("System.Double", value)
    | .pyOther s => ("System.String", .pyStr s)
  ⟨param_name, [("\x7b0\x7d", [⟨net_type, v⟩])]⟩

/-- `format_parameters` (compute_helpers.py:108-112); the dict is an
insertion-ordered association list. -/
def format_parameters (param_dict : List (String × PyVal)) : List FormattedParam :=
  param_dict.map (fun p => format_parameter p.1 p.2)

/-! ## Compute call response handling (`run_rhino_compute`) -/

/-- The response received by `run_rhino_compute`: status code, the outcome of
`response.json()` (top-level object as key/raw-value pairs, or the parse
exception's message), and `response.text`. -/
structure HttpResponse where
  status_code : Nat
  json : Except String (List (String × String))
  text : String
deriving Repr

/-- The response processing of `run_rhino_compute` (compute_helpers.py:42-60).
The `ValueError` raised for a non-200 status sits inside the same `try`, so
the generic `except` re-wraps its message with `Failed to process response:`. -/
def run_rhino_compute (response : HttpResponse) :
    Except String (List (String × String)) :=
  match response.json with
  | .error m => .error ("Failed to process response: " ++ m)
  | .ok json_response =>
      if response.status_code = 500 ∧ (json_response.lookup "values").isSome then
        .ok json_response
      else if response.status_code ≠ 200 then
        .error ("Failed to process response: Rhino.Compute returned status " ++
          toString response.status_code ++ ": " ++ response.text)
      else .ok json_response

/-! ## Bridge lemmas between the executable model and rational values -/

theorem pow10_pos (n : Nat) : (0 : Int) < pow10 n := by
  induction n with
  | zero => decide
  | succ n ih => rw [pow10]; exact mul_pos (by norm_num) ih

theorem pow10_ne_zero (n : Nat) : pow10 n ≠ 0 :=
  ne_of_gt (pow10_pos n)

/-- `DecFloat.le` agrees with `≤` on the rational values. -/
theorem DecFloat.le_iff_val (a b : DecFloat) :
    (DecFloat.le a b = true) ↔ a.val ≤ b.val := by
  have ha : (0 : ℚ) < ((pow10 a.scale : ℤ) : ℚ) := by exact_mod_cast pow10_pos a.scale
  have hb : (0 : ℚ) < ((pow10 b.scale : ℤ) : ℚ) := by exact_mod_cast pow10_pos b.scale
  rw [DecFloat.le, decide_eq_true_eq, DecFloat.val, DecFloat.val, div_le_div_iff₀ ha hb]
  constructor <;> intro h <;> exact_mod_cast h

/-- A scale-0 `DecFloat` is its mantissa. -/
theorem DecFloat.val_scale0 (m : Int) : (⟨m, 0⟩ : DecFloat).val = (m : ℚ) := by
  simp [DecFloat.val, pow10]

/-- `DecFloat.isIntegral` holds exactly when the rational value is an
integer; Python's `value == int(value)` test. -/
theorem DecFloat.isIntegral_iff (d : DecFloat) :
    (d.isIntegral = true) ↔ ∃ n : ℤ, d.val = (n : ℚ) := by
  rw [DecFloat.isIntegral, decide_eq_true_eq, DecFloat.val]
  constructor
  · intro h
    obtain ⟨k, hk⟩ := Int.dvd_of_emod_eq_zero h
    refine ⟨k, ?_⟩
    rw [hk]
    push_cast
    rw [mul_comm, mul_div_assoc, div_self, mul_one]
    exact_mod_cast pow10_ne_zero d.scale
  · rintro ⟨n, hn⟩
    have hp : ((pow10 d.scale : ℤ) : ℚ) ≠ 0 := by exact_mod_cast pow10_ne_zero d.scale
    have : (d.mant : ℚ) = (n : ℚ) * ((pow10 d.scale : ℤ) : ℚ) := by
      field_simp at hn
      linarith [hn]
    have hm : d.mant = n * pow10 d.scale := by exact_mod_cast this
    rw [hm]
    exact Int.mul_emod_left n _

/-- On an integral value, `int(value)` recovers the exact integer. -/
theorem DecFloat.toIntTrunc_val (d : DecFloat) (h : d.isIntegral = true) :
    (d.toIntTrunc : ℚ) = d.val := by
  rw [DecFloat.isIntegral, decide_eq_true_eq] at h
  obtain ⟨k, hk⟩ := Int.dvd_of_emod_eq_zero h
  have hp : ((pow10 d.scale : ℤ) : ℚ) ≠ 0 := by exact_mod_cast pow10_ne_zero d.scale
  rw [DecFloat.toIntTrunc, DecFloat.val, hk,
    Int.mul_ediv_cancel_left _ (pow10_ne_zero d.scale)]
  push_cast
  rw [mul_comm, mul_div_assoc, div_self hp, mul_one]

/-! ## String distinctness helpers -/

theorem take8_append_left (p m : String) (hp : 8 ≤ p.data.length) :
    (p ++ m).data.take 8 = p.data.take 8 := by
  rw [String.data_append, List.take_append_of_le_length hp]

theorem string_ne_append_of_take8 (t p m : String)
    (hp : 8 ≤ p.data.length) (h : t.data.take 8 ≠ p.data.take 8) : t ≠ p ++ m := by
  intro he
  exact h (by rw [he, take8_append_left p m hp])

theorem append_ne_append_of_take8 (p m q m' : String)
    (hp : 8 ≤ p.data.length) (hq : 8 ≤ q.data.length)
    (h : p.data.take 8 ≠ q.data.take 8) : p ++ m ≠ q ++ m' := by
  intro he
  apply h
  calc p.data.take 8 = (p ++ m).data.take 8 := (take8_append_left p m hp).symm
    _ = (q ++ m').data.take 8 := by rw [he]
    _ = q.data.take 8 := take8_append_left q m' hq

/-- When the input is not a direct coordinate pair, the pipeline takes the
geocoding path. -/
theorem traced_eq_geocode_path (geocode : String → GeocodeOutcome) (cosAbs : ℚ → ℚ)
    (location : String) (box_size_meters : ℚ)
    (hpf : (parse_direct_coordinates location).1 = false) :
    location_to_coordinates_traced geocode cosAbs location box_size_meters =
      geocode_path geocode cosAbs location box_size_meters := by
  rcases hpd : parse_direct_coordinates location with ⟨b, ola, olo⟩
  rw [hpd] at hpf
  simp at hpf
  subst hpf
  cases ola <;> cases olo <;> simp [location_to_coordinates_traced, hpd]

/-- Closed form of folding `add_object` over a list of objects. -/
theorem foldl_add_object (objects : List GeomObj) (model : File3dmObjectTable) :
    objects.foldl add_object model =
      ⟨model.curves ++ objects.filter (fun o => o.isCurve),
       model.points ++ objects.filter (fun o => !o.isCurve && o.isPoint),
       model.surfaces ++ objects.filter (fun o => !o.isCurve && !o.isPoint && o.isSurface),
       model.meshes ++
         objects.filter (fun o => !o.isCurve && !o.isPoint && !o.isSurface && o.isMesh),
       model.breps ++
         objects.filter
           (fun o => !o.isCurve && !o.isPoint && !o.isSurface && !o.isMesh && o.isBrep)⟩ := by
  induction objects generalizing model with
  | nil => simp
  | cons o os ih =>
      rw [List.foldl_cons, ih]
      cases hc : o.isCurve <;> cases hp : o.isPoint <;> cases hs : o.isSurface <;>
        cases hm : o.isMesh <;> cases hb : o.isBrep <;>
        simp [add_object, hc, hp, hs, hm, hb, List.filter_cons]

/-- C10: for every location string and box size, the async entry point returns
exactly the same string as the synchronous one (it delegates directly). -/
theorem location_to_coordinates_async_refines (geocode : String → GeocodeOutcome)
    (cosAbs : ℚ → ℚ) (location : String) (box_size_meters : ℚ) :
    location_to_coordinates_async geocode cosAbs location box_size_meters =
      location_to_coordinates geocode cosAbs location box_size_meters := rfl

/-- C9: the multi-geometry writer classifies each value by trying the kinds in
the fixed order curve, point, surface, mesh, solid (brep) and routes it to the
add-operation of the first matching kind; an object satisfying several kinds is
filed under the earliest-listed one, and a value matching no listed kind is
skipped rather than written or rejected. -/
theorem save_3dm_file_classification (objects : List GeomObj) :
    ((save_3dm_file objects).curves = objects.filter (fun o => o.isCurve) ∧
     (save_3dm_file objects).points = objects.filter (fun o => !o.isCurve && o.isPoint) ∧
     (save_3dm_file objects).surfaces =
       objects.filter (fun o => !o.isCurve && !o.isPoint && o.isSurface) ∧
     (save_3dm_file objects).meshes =
       objects.filter (fun o => !o.isCurve && !o.isPoint && !o.isSurface && o.isMesh) ∧
     (save_3dm_file objects).breps =
       objects.filter
         (fun o => !o.isCurve && !o.isPoint && !o.isSurface && !o.isMesh && o.isBrep)) ∧
    (∀ o : GeomObj, o.isCurve = true → save_3dm_file [o] = ⟨[o], [], [], [], []⟩) ∧
    (∀ o : GeomObj, o.isCurve = false → o.isPoint = false → o.isSurface = false →
      o.isMesh = false → o.isBrep = false →
      save_3dm_file (objects ++ [o]) = save_3dm_file objects) := by
  refine ⟨?_, ?_, ?_⟩
  · rw [save_3dm_file, foldl_add_object]
    simp
  · intro o ho
    simp [save_3dm_file, add_object, ho]
  · intro o h1 h2 h3 h4 h5
    rw [save_3dm_file, save_3dm_file, List.foldl_append]
    simp [add_object, h1, h2, h3, h4, h5]

/-- C9 witness: a concrete object satisfying both the curve and the mesh
capability is filed under curves (the earliest-listed kind). -/
theorem save_3dm_file_classification_witness :
    save_3dm_file [(⟨1, true, false, false, true, false⟩ : GeomObj)] =
      ⟨[⟨1, true, false, false, true, false⟩], [], [], [], []⟩ :=
  (save_3dm_file_classification []).2.1 ⟨1, true, false, false, true, false⟩ rfl

/-- C3: the parameter encoder infers the semantic type by strict precedence —
text yields `System.String`; a boolean yields `System.Boolean` (never
`System.Int32`); an integral numeric yields `System.Int32`; a real equal to its
own truncation yields `System.Int32` with the value normalized to integral
form (`5.0` encodes as integer `5`); any other real yields `System.Double`
(`5.5`); any other value yields `System.String` via its textual
representation. -/
theorem format_parameter_type_inference (param_name : String) :
    (∀ s, format_parameter param_name (.pyStr s) =
        ⟨param_name, [("\x7b0\x7d", [⟨"System.String", .pyStr s⟩])]⟩) ∧
    (∀ b, format_parameter param_name (.pyBool b) =
        ⟨param_name, [("\x7b0\x7d", [⟨"System.Boolean", .pyBool b⟩])]⟩ ∧
      ("System.Boolean" : String) ≠ "System.Int32") ∧
    (∀ n, format_parameter param_name (.pyInt n) =
        ⟨param_name, [("\x7b0\x7d", [⟨"System.Int32", .pyInt n⟩])]⟩) ∧
    (∀ d : DecFloat, (∃ n : ℤ, d.val = (n : ℚ)) →
        format_parameter param_name (.pyFloat d) =
          ⟨param_name, [("\x7b0\x7d", [⟨"System.Int32", .pyInt d.toIntTrunc⟩])]⟩ ∧
        (d.toIntTrunc : ℚ) = d.val) ∧
    (∀ d : DecFloat, (¬ ∃ n : ℤ, d.val = (n : ℚ)) →
        format_parameter param_name (.pyFloat d) =
          ⟨param_name, [("\x7b0\x7d", [⟨"System.Double", .pyFloat d⟩])]⟩) ∧
    (∀ s, format_parameter param_name (.pyOther s) =
        ⟨param_name, [("\x7b0\x7d", [⟨"System.String", .pyStr s⟩])]⟩) ∧
    (format_parameter param_name (.pyFloat ⟨50, 1⟩) =
        ⟨param_name, [("\x7b0\x7d", [⟨"System.Int32", .pyInt 5⟩])]⟩) ∧
    (format_parameter param_name (.pyFloat ⟨55, 1⟩) =
        ⟨param_name, [("\x7b0\x7d", [⟨"System.Double", .pyFloat ⟨55, 1⟩⟩])]⟩) := by
  refine ⟨fun s => rfl, fun b => ⟨rfl, by decide⟩, fun n => rfl, ?_, ?_, fun s => rfl,
    ?_, ?_⟩
  · intro d hd
    have h : d.isIntegral = true := (DecFloat.isIntegral_iff d).2 hd
    exact ⟨by simp [format_parameter, h], DecFloat.toIntTrunc_val d h⟩
  · intro d hd
    have h : d.isIntegral = false := by
      rcases Bool.eq_false_or_eq_true d.isIntegral with h | h
      · exact absurd ((DecFloat.isIntegral_iff d).1 h) hd
      · exact h
    simp [format_parameter, h]
  · have h : (⟨50, 1⟩ : DecFloat).isIntegral = true := by decide
    simp [format_parameter, h, DecFloat.toIntTrunc, pow10]
  · have h : (⟨55, 1⟩ : DecFloat).isIntegral = false := by decide
    simp [format_parameter, h]

/-- C3 witness: `5.0` (as the parsed decimal `50 / 10`) is integral and
encodes as `System.Int32` with value `5`. -/
theorem format_parameter_type_inference_witness :
    format_parameter "a" (.pyFloat ⟨50, 1⟩) =
        ⟨"a", [("\x7b0\x7d", [⟨"System.Int32", .pyInt (DecFloat.toIntTrunc ⟨50, 1⟩)⟩])]⟩ ∧
      ((DecFloat.toIntTrunc ⟨50, 1⟩ : ℤ) : ℚ) = (⟨50, 1⟩ : DecFloat).val :=
  (format_parameter_type_inference "a").2.2.2.1 ⟨50, 1⟩
    ⟨5, by norm_num [DecFloat.val, pow10]⟩

/-- C8 counterexample: a response with the conventionally-failing status 502
and a well-formed payload containing the `values` key is rejected with an
error, not accepted as success as the claim states. -/
theorem run_rhino_compute_rejects_non500_counterexample :
    run_rhino_compute ⟨502, .ok [("values", "x")], "boom"⟩ =
        .error "Failed to process response: Rhino.Compute returned status 502: boom" ∧
      run_rhino_compute ⟨502, .ok [("values", "x")], "boom"⟩ ≠ .ok [("values", "x")] := by
  refine ⟨by rfl, ?_⟩
  intro h
  simp [run_rhino_compute] at h

/-- C8 (amended): only a 500 status whose parseable body contains the
result-values key is soft-accepted; a 200 status succeeds with any parseable
body; every other status — and any unparseable body — produces an error, even
when the payload is well-formed. -/
theorem run_rhino_compute_status_handling (response : HttpResponse)
    (j : List (String × String)) :
    (response.json = .ok j → response.status_code = 500 →
      (j.lookup "values").isSome = true → run_rhino_compute response = .ok j) ∧
    (response.json = .ok j → response.status_code = 200 →
      run_rhino_compute response = .ok j) ∧
    (response.json = .ok j → response.status_code ≠ 200 →
      ¬ (response.status_code = 500 ∧ (j.lookup "values").isSome = true) →
      run_rhino_compute response =
        .error ("Failed to process response: Rhino.Compute returned status " ++
          toString response.status_code ++ ": " ++ response.text)) ∧
    (∀ m, response.json = .error m →
      run_rhino_compute response = .error ("Failed to process response: " ++ m)) := by
  refine ⟨?_, ?_, ?_, ?_⟩
  · intro hj h500 hval
    simp [run_rhino_compute, hj, h500, hval]
  · intro hj h200
    simp [run_rhino_compute, hj, h200]
  · intro hj hne hno
    rw [run_rhino_compute, hj]
    simp only
    rw [if_neg, if_pos hne]
    intro hcond
    exact hno ⟨hcond.1, hcond.2⟩
  · intro m hm
    simp [run_rhino_compute, hm]

/-- C8 witness: a 500 response with a `values` payload is accepted. -/
theorem run_rhino_compute_status_handling_witness :
    run_rhino_compute ⟨500, .ok [("values", "v")], ""⟩ = .ok [("values", "v")] :=
  (run_rhino_compute_status_handling ⟨500, .ok [("values", "v")], ""⟩
    [("values", "v")]).1 rfl rfl (by decide)

/-- C1 counterexample: the decoder reads only `values[0]`.  In a response
whose second entry is the only one containing the requested path, an entry
whose branch map contains the path exists, yet decoding fails; and a response
whose first entry holds the path with an empty branch decodes to the empty
sequence instead of failing. -/
theorem decode_gh_output_first_entry_counterexample :
    (decode_gh_output (fun _ => none)
        ⟨[⟨"A", []⟩, ⟨"B", [("\x7b0;0\x7d", [⟨"t", LeafData.str "7"⟩])]⟩]⟩
        "\x7b0;0\x7d" = none) ∧
    ((⟨[⟨"A", []⟩, ⟨"B", [("\x7b0;0\x7d", [⟨"t", LeafData.str "7"⟩])]⟩]⟩ :
        GhOutput).values.find?
        (fun e => (e.innerTree.lookup "\x7b0;0\x7d").isSome)).isSome = true ∧
    (decode_gh_output (fun _ => none) ⟨[⟨"A", [("\x7b0;0\x7d", [])]⟩]⟩
        "\x7b0;0\x7d" = some []) := by decide

/-- C1 (amended): the decoder inspects only the first entry of the response's
ordered sequence — decoding fails exactly when the sequence is empty or the
first entry's branch map lacks the requested path; otherwise it decodes that
branch's leaves in order, an empty branch yielding the empty result rather
than an error. -/
theorem decode_gh_output_head_entry_only (geomDecode : String → Option GeomObj)
    (output : GhOutput) (tree_path : String) :
    (decode_gh_output geomDecode output tree_path = none ↔
      output.values = [] ∨
        ∃ e rest, output.values = e :: rest ∧ e.innerTree.lookup tree_path = none) ∧
    (∀ e rest branch, output.values = e :: rest →
      e.innerTree.lookup tree_path = some branch →
      decode_gh_output geomDecode output tree_path =
        some (branch.map (fun item => decodeLeaf geomDecode item.data))) := by
  constructor
  · cases hv : output.values with
    | nil =>
        simp only [decode_gh_output, hv]
        simp
    | cons e rest =>
        cases hl : e.innerTree.lookup tree_path with
        | none =>
            simp only [decode_gh_output, hv, hl]
            constructor
            · intro _
              exact Or.inr ⟨e, rest, rfl, hl⟩
            · intro _
              trivial
        | some branch =>
            simp only [decode_gh_output, hv, hl]
            constructor
            · intro h
              exact absurd h (by simp)
            · rintro (h | ⟨e', rest', heq, hnone⟩)
              · exact absurd h (by simp)
              · obtain ⟨rfl, rfl⟩ : e = e' ∧ rest = rest' := by
                  injection heq with h1 h2
                  exact ⟨h1, h2⟩
                rw [hl] at hnone
                exact absurd hnone (by simp)
  · intro e rest branch hv hl
    simp [decode_gh_output, hv, hl]

/-- C1 witness: a response whose first entry holds the path decodes that
branch's leaves in order. -/
theorem decode_gh_output_head_entry_only_witness :
    decode_gh_output (fun _ => none)
        ⟨[⟨"A", [("\x7b0;0\x7d", [⟨"t", LeafData.str "7"⟩])]⟩]⟩ "\x7b0;0\x7d" =
      some ([(⟨"t", LeafData.str "7"⟩ : GhLeaf)].map
        (fun item => decodeLeaf (fun _ => none) item.data)) :=
  (decode_gh_output_head_entry_only (fun _ => none) _ _).2 _ _ _ rfl (by decide)

/-- C4 counterexample: the one-character data `"` is not wrapped in a matching
pair of quotes, yet the code strips it (to the empty string); the chain as
claimed would emit the text `"` unchanged. -/
theorem decodeLeaf_lone_quote_counterexample :
    decodeLeaf (fun _ => none) (.str "\"") = .strVal "" ∧
      decodeLeaf (fun _ => none) (.str "\"") ≠ .strVal "\"" := by decide

/-- C4 (amended): each leaf decodes by the ordered fallback chain — strip one
layer of quotes whenever the text both starts and ends with a double quote (a
lone quote character strips to the empty string); then geometry decode,
accepted only when the oracle returns an object; then numeric decode, real
when the text contains a decimal point and integer otherwise; else the
unquoted text as a string; geometry and numeric failures are swallowed.  A
leaf with data `"10"` decodes to the integer 10. -/
theorem decodeLeaf_fallback_chain (geomDecode : String → Option GeomObj) :
    (∀ s0 : String, pyStartsWith s0 "\"" = true → pyEndsWith s0 "\"" = true →
      unquoteOnce s0 = dropFirstLast s0) ∧
    (∀ s0 : String, ¬ (pyStartsWith s0 "\"" = true ∧ pyEndsWith s0 "\"" = true) →
      unquoteOnce s0 = s0) ∧
    (∀ s0 obj, geomDecode (unquoteOnce s0) = some obj →
      decodeLeaf geomDecode (.str s0) = .geom obj) ∧
    (∀ s0 num, geomDecode (unquoteOnce s0) = none →
      substrMem "." (unquoteOnce s0) = true → pyFloat? (unquoteOnce s0) = some num →
      decodeLeaf geomDecode (.str s0) = .realVal num) ∧
    (∀ s0 num, geomDecode (unquoteOnce s0) = none →
      substrMem "." (unquoteOnce s0) = false → pyInt? (unquoteOnce s0) = some num →
      decodeLeaf geomDecode (.str s0) = .intVal num) ∧
    (∀ s0, geomDecode (unquoteOnce s0) = none →
      substrMem "." (unquoteOnce s0) = true → pyFloat? (unquoteOnce s0) = none →
      decodeLeaf geomDecode (.str s0) = .strVal (unquoteOnce s0)) ∧
    (∀ s0, geomDecode (unquoteOnce s0) = none →
      substrMem "." (unquoteOnce s0) = false → pyInt? (unquoteOnce s0) = none →
      decodeLeaf geomDecode (.str s0) = .strVal (unquoteOnce s0)) ∧
    (∀ tag, decodeLeaf geomDecode (.nonstr tag) = .rawVal tag) ∧
    (∀ g' : String → Option GeomObj, g' "10" = none →
      decodeLeaf g' (.str "\"10\"") = .intVal 10) := by
  refine ⟨?_, ?_, ?_, ?_, ?_, ?_, ?_, fun tag => rfl, ?_⟩
  · intro s0 h1 h2
    simp [unquoteOnce, h1, h2]
  · intro s0 h
    have hb : (pyStartsWith s0 "\"" && pyEndsWith s0 "\"") = false := by
      cases h1 : pyStartsWith s0 "\"" <;> cases h2 : pyEndsWith s0 "\"" <;> simp_all
    simp [unquoteOnce, hb]
  · intro s0 obj h
    simp [decodeLeaf, h]
  · intro s0 num h1 h2 h3
    simp [decodeLeaf, h1, h2, h3]
  · intro s0 num h1 h2 h3
    simp [decodeLeaf, h1, h2, h3]
  · intro s0 h1 h2 h3
    simp [decodeLeaf, h1, h2, h3]
  · intro s0 h1 h2 h3
    simp [decodeLeaf, h1, h2, h3]
  · intro g' hg
    have hu : unquoteOnce "\"10\"" = "10" := by decide
    have h2 : substrMem "." "10" = false := by decide
    have h3 : pyInt? "10" = some 10 := by decide
    simp [decodeLeaf, hu, hg, h2, h3]

/-- C4 witness: with a geometry oracle that rejects `10`, the quoted leaf
`"10"` decodes to the integer 10. -/
theorem decodeLeaf_fallback_chain_witness :
    decodeLeaf (fun _ => none) (.str "\"10\"") = .intVal 10 :=
  (decodeLeaf_fallback_chain (fun _ => none)).2.2.2.2.2.2.2.2 (fun _ => none) rfl

/-- C2 counterexample: for the intersection query of the spec's own example,
the single retry is issued with the *lower-cased* toggled text, not with the
original text merely toggled. -/
theorem intersection_retry_lowercases_counterexample :
    ((location_to_coordinates_traced (fun _ => .ok []) (fun _ => 1)
        "5th Ave and 23rd St, New York" 100).2 =
      ["5th Ave and 23rd St, New York", "5th ave & 23rd st, new york"]) ∧
    ((location_to_coordinates_traced (fun _ => .ok []) (fun _ => 1)
        "5th Ave and 23rd St, New York" 100).2 ≠
      ["5th Ave and 23rd St, New York", "5th Ave & 23rd St, New York"]) := by decide

/-- C2 (amended): for every location flagged as a probable intersection whose
first geocoding call returns zero candidates, exactly one retry is issued and
its query is the lower-cased input with " and "/" & " toggled (whichever is
present in the lower-cased text replaced by the other; if neither occurs, the
original input unchanged); no further retries follow. -/
theorem intersection_retry_exactly_once (geocode : String → GeocodeOutcome)
    (cosAbs : ℚ → ℚ) (location : String) (box_size_meters : ℚ)
    (hdirect : (parse_direct_coordinates location).1 = false)
    (hinter : is_potential_intersection location = true)
    (hfirst : geocode location = .ok []) :
    (location_to_coordinates_traced geocode cosAbs location box_size_meters).2 =
      [location, try_alternate_intersection_format_query location] := by
  rw [traced_eq_geocode_path geocode cosAbs location box_size_meters hdirect]
  simp only [geocode_path, hinter, hfirst, List.isEmpty_nil, Bool.and_self, if_true]
  cases hq : geocode (try_alternate_intersection_format_query location) with
  | timeout => rfl
  | reqError m => rfl
  | ok rs => cases rs <;> rfl

/-- C2 witness: a flagged intersection with an empty first geocoding result
issues exactly the one (lower-cased, toggled) retry. -/
theorem intersection_retry_exactly_once_witness :
    (location_to_coordinates_traced (fun _ => .ok []) (fun _ => 1) "A and B" 100).2 =
      ["A and B", try_alternate_intersection_format_query "A and B"] :=
  intersection_retry_exactly_once _ _ _ _ (by decide) (by decide) rfl

/-- C7: the bounding box is `[lon - d_lon, lat - d_lat, lon + d_lon,
lat + d_lat]` (min-lon, min-lat, max-lon, max-lat, the order embedded in the
emitted query URL) with `d_lat = size / 111320` and `d_lon` the latitude
offset divided by the cosine magnitude of the center latitude; at latitude 0
the offsets are equal, and at latitude 60° the longitude offset is exactly
`1 / cos 60° = 2` times the latitude offset. -/
theorem calculate_bounding_box_latitude_adjustment :
    (∀ lat lon box_size_meters : ℝ,
      calculate_bounding_box lat lon box_size_meters =
        [lon - box_size_meters / (111320 * |Real.cos (radians lat)|),
         lat - box_size_meters / 111320,
         lon + box_size_meters / (111320 * |Real.cos (radians lat)|),
         lat + box_size_meters / 111320]) ∧
    (∀ lat s : ℝ, s / (111320 * |Real.cos (radians lat)|) =
      (s / 111320) / |Real.cos (radians lat)|) ∧
    (∀ s : ℝ, s / (111320 * |Real.cos (radians 0)|) = s / 111320) ∧
    (∀ s : ℝ, s / (111320 * |Real.cos (radians 60)|) = 2 * (s / 111320)) ∧
    (∀ a b c d : ℚ, generate_overpass_url [a, b, c, d] =
      "https://overpass-api.de/api/map?bbox=" ++
        (pyNumStr a ++ "," ++ pyNumStr b ++ "," ++ pyNumStr c ++ "," ++ pyNumStr d)) := by
  refine ⟨fun lat lon s => rfl, fun lat s => (div_div s 111320 _).symm, ?_, ?_,
    fun a b c d => rfl⟩
  · intro s
    have h0 : radians 0 = 0 := by simp [radians]
    rw [h0, Real.cos_zero, abs_one, mul_one]
  · intro s
    have h60 : radians 60 = Real.pi / 3 := by rw [radians]; ring
    rw [h60, Real.cos_pi_div_three, show |(1 : ℝ) / 2| = 1 / 2 by norm_num]
    ring

/-- C5: direct-coordinate classification succeeds iff the string contains a
comma, splits by comma into exactly two parts, and both parts parse as real
numbers with latitude in [-90, 90] and longitude in [-180, 180]; on success
(e.g. "40.7128, -74.0060") geocoding is never invoked, and on an
out-of-range value (e.g. "0,200") classification fails and the pipeline
falls through to geocoding. -/
theorem parse_direct_coordinates_spec :
    (∀ location : String,
      ((parse_direct_coordinates location).1 = true ↔
        ∃ p0 p1 la lo, substrMem "," location = true ∧
          (splitOnChar ',' location).map pyStrip = [p0, p1] ∧
          pyFloat? p0 = some la ∧ pyFloat? p1 = some lo ∧
          -90 ≤ la.val ∧ la.val ≤ 90 ∧ -180 ≤ lo.val ∧ lo.val ≤ 180)) ∧
    (∀ location la lo,
      parse_direct_coordinates location = (true, some la, some lo) →
      ∀ geocode cosAbs box_size_meters,
        (location_to_coordinates_traced geocode cosAbs location
          box_size_meters).2 = []) ∧
    (parse_direct_coordinates "40.7128, -74.0060" =
      (true, some ⟨407128, 4⟩, some ⟨-740060, 4⟩)) ∧
    ((⟨407128, 4⟩ : DecFloat).val = 407128 / 10000) ∧
    ((⟨-740060, 4⟩ : DecFloat).val = -(740060 / 10000)) ∧
    (parse_direct_coordinates "0,200" = (false, none, none)) ∧
    (∀ geocode cosAbs box_size_meters,
      (location_to_coordinates_traced geocode cosAbs "0,200"
        box_size_meters).2 = ["0,200"]) := by
  refine ⟨?_, ?_, by decide, ?_, ?_, by decide, ?_⟩
  · intro location
    constructor
    · intro h
      by_cases hc : substrMem "," location = true
      case neg =>
        rw [parse_direct_coordinates, if_pos hc] at h
        simp at h
      rw [parse_direct_coordinates, if_neg (not_not_intro hc)] at h
      rcases hL : (splitOnChar ',' location).map pyStrip with _ | ⟨p0, _ | ⟨p1, _ | ⟨q, tl⟩⟩⟩
      · rw [hL] at h; simp at h
      · rw [hL] at h; simp at h
      · rw [hL] at h
        simp only [] at h
        cases hf0 : pyFloat? p0 with
        | none => rw [hf0] at h; simp at h
        | some la =>
          cases hf1 : pyFloat? p1 with
          | none => rw [hf0, hf1] at h; simp at h
          | some lo =>
            rw [hf0, hf1] at h
            simp only [] at h
            split at h
            next hcond =>
              have hcond' : (DecFloat.le ⟨-90, 0⟩ la && DecFloat.le la ⟨90, 0⟩ &&
                  DecFloat.le ⟨-180, 0⟩ lo && DecFloat.le lo ⟨180, 0⟩) = true := hcond
              simp only [Bool.and_eq_true] at hcond'
              obtain ⟨⟨⟨hA, hB⟩, hC⟩, hD⟩ := hcond'
              refine ⟨p0, p1, la, lo, hc, rfl, hf0, hf1, ?_, ?_, ?_, ?_⟩
              · have := (DecFloat.le_iff_val ⟨-90, 0⟩ la).1 hA
                rw [DecFloat.val_scale0] at this
                exact_mod_cast this
              · have := (DecFloat.le_iff_val la ⟨90, 0⟩).1 hB
                rw [DecFloat.val_scale0] at this
                exact_mod_cast this
              · have := (DecFloat.le_iff_val ⟨-180, 0⟩ lo).1 hC
                rw [DecFloat.val_scale0] at this
                exact_mod_cast this
              · have := (DecFloat.le_iff_val lo ⟨180, 0⟩).1 hD
                rw [DecFloat.val_scale0] at this
                exact_mod_cast this
            next => simp at h
      · rw [hL] at h; simp at h
    · rintro ⟨p0, p1, la, lo, hc, hL, hf0, hf1, r1, r2, r3, r4⟩
      have c1 : DecFloat.le ⟨-90, 0⟩ la = true := by
        rw [DecFloat.le_iff_val, DecFloat.val_scale0]
        exact_mod_cast r1
      have c2 : DecFloat.le la ⟨90, 0⟩ = true := by
        rw [DecFloat.le_iff_val, DecFloat.val_scale0]
        exact_mod_cast r2
      have c3 : DecFloat.le ⟨-180, 0⟩ lo = true := by
        rw [DecFloat.le_iff_val, DecFloat.val_scale0]
        exact_mod_cast r3
      have c4 : DecFloat.le lo ⟨180, 0⟩ = true := by
        rw [DecFloat.le_iff_val, DecFloat.val_scale0]
        exact_mod_cast r4
      simp [parse_direct_coordinates, hc, hL, hf0, hf1, c1, c2, c3, c4]
  · intro location la lo hp geocode cosAbs box_size_meters
    simp [location_to_coordinates_traced, hp]
  · norm_num [DecFloat.val, pow10]
  · norm_num [DecFloat.val, pow10]
  · intro geocode cosAbs box_size_meters
    rw [traced_eq_geocode_path _ _ _ _ (by decide), geocode_path]
    have hi : is_potential_intersection "0,200" = false := by decide
    simp only [hi, Bool.and_false]
    cases hg : geocode "0,200" with
    | timeout => rfl
    | reqError m => rfl
    | ok rs => cases rs <;> rfl

/-- C5 witness: a well-formed coordinate pair skips geocoding entirely. -/
theorem parse_direct_coordinates_spec_witness :
    (location_to_coordinates_traced (fun _ => .ok []) (fun _ => 1)
      "40.7128, -74.0060" 100).2 = [] :=
  parse_direct_coordinates_spec.2.1 "40.7128, -74.0060" ⟨407128, 4⟩ ⟨-740060, 4⟩
    (by decide) (fun _ => .ok []) (fun _ => 1) 100

/-! ## Error-string decompositions for the pipeline boundary -/

theorem err_split_timeout :
    ("Error: Geocoding API request timed out" : String) =
      "Error: " ++ "Geocoding API request timed out" := by decide

theorem err_split_network (m : String) :
    "Error: Network error when geocoding location: " ++ m =
      "Error: " ++ ("Network error when geocoding location: " ++ m) := rfl

theorem err_split_invalid (m : String) :
    "Error: Invalid location format: " ++ m =
      "Error: " ++ ("Invalid location format: " ++ m) := rfl

theorem err_split_invalid_float (s : String) :
    "Error: Invalid location format: could not convert string to float: \x27" ++
        s ++ "\x27" =
      "Error: " ++ ("Invalid location format: could not convert string to float: \x27" ++
        s ++ "\x27") := rfl

theorem err_split_notfound (l : String) :
    "Error: Location \x27" ++ l ++ "\x27 not found" =
      "Error: " ++ ("Location \x27" ++ l ++ "\x27 not found") := rfl

/-- Every result of the candidate-resolution step is a bounding-box URL or an
`Error: `-prefixed string. -/
theorem resolve_selected_shape (cosAbs : ℚ → ℚ) (box_size_meters : ℚ)
    (results : List Candidate) (ic : Bool) :
    (∃ rest, resolve_selected cosAbs box_size_meters results ic =
      "https://overpass-api.de/api/map?bbox=" ++ rest) ∨
    (∃ rest, resolve_selected cosAbs box_size_meters results ic =
      "Error: " ++ rest) := by
  rw [resolve_selected]
  split
  · exact Or.inr ⟨_, err_split_invalid _⟩
  · split
    · exact Or.inr ⟨_, err_split_invalid_float _⟩
    · split
      · exact Or.inr ⟨_, err_split_invalid_float _⟩
      · exact Or.inl ⟨_, rfl⟩

/-- Every result of the geocoding path is a bounding-box URL or an
`Error: `-prefixed string. -/
theorem geocode_path_shape (geocode : String → GeocodeOutcome) (cosAbs : ℚ → ℚ)
    (location : String) (box_size_meters : ℚ) :
    (∃ rest, (geocode_path geocode cosAbs location box_size_meters).1 =
      "https://overpass-api.de/api/map?bbox=" ++ rest) ∨
    (∃ rest, (geocode_path geocode cosAbs location box_size_meters).1 =
      "Error: " ++ rest) := by
  rw [geocode_path]
  split
  · exact Or.inr ⟨_, err_split_timeout⟩
  · exact Or.inr ⟨_, err_split_network _⟩
  · split
    · simp only []
      split
      · exact Or.inr ⟨_, err_split_timeout⟩
      · exact Or.inr ⟨_, err_split_network _⟩
      · split
        · exact Or.inr ⟨_, err_split_notfound location⟩
        · exact resolve_selected_shape cosAbs box_size_meters _ _
    · split
      · exact Or.inr ⟨_, err_split_notfound location⟩
      · exact resolve_selected_shape cosAbs box_size_meters _ _

/-- C6: the pipeline never raises past its own boundary — every input yields
either a bounding-box query URL or an `Error: `-prefixed string; a timeout, a
transport error, a coordinate-parsing error, and an empty final result each
yield their own distinct error string (pairwise different for any message
contents); and zero candidates after the retry yield an error string
containing the original input text. -/
theorem location_pipeline_error_handling (geocode : String → GeocodeOutcome)
    (cosAbs : ℚ → ℚ) (location : String) (box_size_meters : ℚ) :
    ((∃ rest, location_to_coordinates geocode cosAbs location box_size_meters =
        "https://overpass-api.de/api/map?bbox=" ++ rest) ∨
     (∃ rest, location_to_coordinates geocode cosAbs location box_size_meters =
        "Error: " ++ rest)) ∧
    ((parse_direct_coordinates location).1 = false → geocode location = .timeout →
      location_to_coordinates geocode cosAbs location box_size_meters =
        "Error: Geocoding API request timed out") ∧
    (∀ m, (parse_direct_coordinates location).1 = false →
      geocode location = .reqError m →
      location_to_coordinates geocode cosAbs location box_size_meters =
        "Error: Network error when geocoding location: " ++ m) ∧
    (∀ results sel, (parse_direct_coordinates location).1 = false →
      is_potential_intersection location = false →
      geocode location = .ok results → results.isEmpty = false →
      select_best_geocoding_result results false = .ok sel →
      pyFloat? sel.lat = none →
      location_to_coordinates geocode cosAbs location box_size_meters =
        "Error: Invalid location format: could not convert string to float: \x27" ++
          sel.lat ++ "\x27") ∧
    ((parse_direct_coordinates location).1 = false →
      is_potential_intersection location = true →
      geocode location = .ok [] →
      geocode (try_alternate_intersection_format_query location) = .ok [] →
      location_to_coordinates geocode cosAbs location box_size_meters =
        "Error: Location \x27" ++ location ++ "\x27 not found" ∧
      ∃ pre post, location_to_coordinates geocode cosAbs location box_size_meters =
        pre ++ location ++ post) ∧
    (∀ m, ("Error: Geocoding API request timed out" : String) ≠
      "Error: Network error when geocoding location: " ++ m) ∧
    (∀ m, ("Error: Geocoding API request timed out" : String) ≠
      "Error: Invalid location format: " ++ m) ∧
    (∀ l, ("Error: Geocoding API request timed out" : String) ≠
      "Error: Location \x27" ++ (l ++ "\x27 not found")) ∧
    (∀ m m', "Error: Network error when geocoding location: " ++ m ≠
      "Error: Invalid location format: " ++ m') ∧
    (∀ m l, "Error: Network error when geocoding location: " ++ m ≠
      "Error: Location \x27" ++ (l ++ "\x27 not found")) ∧
    (∀ m l, "Error: Invalid location format: " ++ m ≠
      "Error: Location \x27" ++ (l ++ "\x27 not found")) := by
  refine ⟨?_, ?_, ?_, ?_, ?_,
    fun m => string_ne_append_of_take8 _ _ _ (by decide) (by decide),
    fun m => string_ne_append_of_take8 _ _ _ (by decide) (by decide),
    fun l => string_ne_append_of_take8 _ _ _ (by decide) (by decide),
    fun m m' => append_ne_append_of_take8 _ _ _ _ (by decide) (by decide) (by decide),
    fun m l => append_ne_append_of_take8 _ _ _ _ (by decide) (by decide) (by decide),
    fun m l => append_ne_append_of_take8 _ _ _ _ (by decide) (by decide) (by decide)⟩
  · rw [location_to_coordinates, location_to_coordinates_traced]
    rcases hpd : parse_direct_coordinates location with ⟨bb, ola, olo⟩
    cases bb
    · cases ola <;> cases olo <;>
        exact geocode_path_shape geocode cosAbs location box_size_meters
    · cases ola with
      | none =>
          cases olo <;> exact geocode_path_shape geocode cosAbs location box_size_meters
      | some la =>
          cases olo with
          | none => exact geocode_path_shape geocode cosAbs location box_size_meters
          | some lo => exact Or.inl ⟨_, rfl⟩
  · intro hpf ht
    rw [location_to_coordinates, traced_eq_geocode_path _ _ _ _ hpf, geocode_path, ht]
  · intro m hpf hr
    rw [location_to_coordinates, traced_eq_geocode_path _ _ _ _ hpf, geocode_path, hr]
  · intro results sel hpf hint hg hne hsel hla
    rw [location_to_coordinates, traced_eq_geocode_path _ _ _ _ hpf, geocode_path, hg]
    simp only [hint, hne, Bool.and_false, Bool.false_eq_true, if_false]
    rw [resolve_selected, hsel]
    simp only [hla]
  · intro hpf hint hok hok2
    have h1 : location_to_coordinates geocode cosAbs location box_size_meters =
        "Error: Location \x27" ++ location ++ "\x27 not found" := by
      rw [location_to_coordinates, traced_eq_geocode_path _ _ _ _ hpf, geocode_path, hok]
      simp only [hint, List.isEmpty_nil, Bool.and_self, if_true]
      rw [hok2]
      rfl
    exact ⟨h1, "Error: Location \x27", "\x27 not found", h1⟩

/-- C6 witness: a geocoding timeout on a non-coordinate input returns the
timeout error string. -/
theorem location_pipeline_error_handling_witness :
    location_to_coordinates (fun _ => .timeout) (fun _ => 1) "somewhere" 100 =
      "Error: Geocoding API request timed out" :=
  (location_pipeline_error_handling (fun _ => .timeout) (fun _ => 1)
    "somewhere" 100).2.1 (by decide) rfl

end GhMcp
